import Mathlib

set_option autoImplicit false

namespace SparkStack

/-- The `SandboxStatus` enum from `routers/project_socket.py` (lines 29-35). -/
inductive SandboxStatus where
  | OFFLINE
  | BUILDING
  | BUILDING_WAITING
  | READY
  | WORKING
  | WORKING_APPLYING
deriving DecidableEq, Repr

/-- Python dict assignment `m[k] = v` on an insertion-ordered dictionary,
represented as an association list with unique keys. -/
def dictSet {α : Type} : List (Nat × α) → Nat → α → List (Nat × α)
  | [], k, v => [(k, v)]
  | (k', v') :: rest, k, v =>
      if k' = k then (k, v) :: rest else (k', v') :: dictSet rest k v

/-- Python dict read `m.get(k)` (and the key-membership test `k in m`). -/
def dictGet {α : Type} : List (Nat × α) → Nat → Option α
  | [], _ => none
  | (k', v') :: rest, k => if k' = k then some v' else dictGet rest k

/-- Python dict deletion `del m[k]`. -/
def dictErase {α : Type} : List (Nat × α) → Nat → List (Nat × α)
  | [], _ => []
  | (k', v') :: rest, k => if k' = k then rest else (k', v') :: dictErase rest k

/-- Modelled from the spec: `ServiceType` is declared in `db.models`, which is not
under `src/`; the spec's glossary ("Service: one deployable half of a project
(frontend or backend)") and its scenario text fix the two members. -/
inductive ServiceType where
  | BACKEND
  | FRONTEND
deriving DecidableEq, Repr, BEq

/-- Modelled from the spec: the Python `.value` string of each `ServiceType` member
(used by `_handle_chat_message` to build the error text
`f"{service.service_type.value} sandbox is not running."`).  The spec's scenario
gives the resulting message as exactly "Backend sandbox is not running.",
which fixes the value strings. -/
def ServiceType.value : ServiceType → String
  | .BACKEND => "Backend"
  | .FRONTEND => "Frontend"

/-- A row of the `services` relation of a project (`db.models.Service`), restricted
to the two fields `_handle_chat_message` and the sandbox tasks read. -/
structure Service where
  id : Nat
  service_type : ServiceType
deriving DecidableEq, Repr

/-- A `db.models.Project` restricted to the fields the manager reads. -/
structure Project where
  id : Nat
  services : List Service
deriving Repr

/-- `next((svc for svc in project.services if svc.service_type == t), None)`. -/
def findService (proj : Project) (t : ServiceType) : Option Service :=
  proj.services.find? (fun svc => decide (svc.service_type = t))

/-- Observable actions of the ProjectManager and its tasks, in program order.
`broadcastStatus` records the payload of
`self.emit_project(await self._get_project_status())`, whose `sandbox_statuses`
field is `self.sandbox_statuses.copy()` taken at call time. -/
inductive Event where
  | assignStatus (service : Nat) (st : SandboxStatus)
  | broadcastStatus (payload : List (Nat × SandboxStatus))
  | chatError (chat : Nat) (msg : String)
  | persistMessage (role : String)
  | chatUpdate (chat : Nat) (role : String)
  | runOrchestrator
  | writeFiles (service : Nat)
  | refreshFilePaths (service : Nat)
  | applyDiffs
  | lintRun
  | applyLintFixes
  | commitCall
  | sleep (seconds : Nat)
  | scheduleRetry
  | terminateSandbox (service : Nat)
  | closeSocket (sock : Nat)
deriving DecidableEq, Repr

/-- Python exceptions that escape the modelled functions. -/
inductive PyError where
  | keyError (key : Nat)
  | attributeError
deriving DecidableEq, Repr

/-- The mutable per-project state of `ProjectManager`:
`chat_sockets` (chat id → list of live websockets, modelled by socket ids),
`sandbox_statuses` (service id → `SandboxStatus`),
`sandboxes` (service id → the stored sandbox, modelled by its `ready` flag,
the only attribute `_handle_chat_message` reads via `getattr(sb, 'ready', False)`),
and `last_activity` (a timestamp in seconds). -/
structure PMState where
  chat_sockets : List (Nat × List Nat)
  sandbox_statuses : List (Nat × SandboxStatus)
  sandboxes : List (Nat × Bool)
  last_activity : Nat
deriving DecidableEq, Repr

/-- The guard `not backend_sandbox or getattr(backend_sandbox, 'ready', False) is False`
from `_handle_chat_message`: the turn proceeds for a service only when a sandbox is
stored for it and its `ready` flag is `True`. -/
def sandboxReady (pm : PMState) (service_id : Nat) : Bool :=
  match dictGet pm.sandboxes service_id with
  | none => false
  | some r => r

/-- `ProjectManager._handle_chat_message` (project_socket.py lines 331-477).
Returns the final state (or the escaping exception) together with the trace of
observable actions in program order.  `agents_present` states whether
`self.chat_agents[chat_id]` is registered (it is, whenever the message came in
through a socket registered by `add_chat_socket`); when it is not, the lookup at
line 405 raises `KeyError` after the user message was persisted and emitted. -/
def handleChatMessage (pm : PMState) (proj : Project) (chat_id : Nat)
    (agents_present : Bool) : Except PyError PMState × List Event :=
  match findService proj .BACKEND, findService proj .FRONTEND with
  | none, none =>
      (.ok pm, [Event.chatError chat_id "Neither Backend nor Frontend service found."])
  | none, some _ => (.error .attributeError, [])
  | some _, none => (.error .attributeError, [])
  | some bs, some fs =>
      if sandboxReady pm bs.id = false then
        let m := dictSet pm.sandbox_statuses bs.id .OFFLINE
        (.ok { pm with sandbox_statuses := m },
          [Event.assignStatus bs.id .OFFLINE,
           Event.broadcastStatus m,
           Event.chatError chat_id (bs.service_type.value ++ " sandbox is not running.")])
      else if sandboxReady pm fs.id = false then
        let m := dictSet pm.sandbox_statuses fs.id .OFFLINE
        (.ok { pm with sandbox_statuses := m },
          [Event.assignStatus fs.id .OFFLINE,
           Event.broadcastStatus m,
           Event.chatError chat_id (fs.service_type.value ++ " sandbox is not running.")])
      else
        let m1 := dictSet pm.sandbox_statuses bs.id .WORKING
        let m2 := dictSet m1 fs.id .WORKING
        let pre : List Event :=
          [Event.assignStatus bs.id .WORKING,
           Event.assignStatus fs.id .WORKING,
           Event.broadcastStatus m2,
           Event.persistMessage "user",
           Event.chatUpdate chat_id "user"]
        if agents_present = false then
          (.error (.keyError chat_id), pre)
        else
          let m3 := dictSet m2 bs.id .READY
          let m4 := dictSet m3 fs.id .READY
          (.ok { pm with sandbox_statuses := m4 },
            pre ++
            [Event.runOrchestrator,
             Event.writeFiles bs.id,
             Event.writeFiles fs.id,
             Event.persistMessage "assistant",
             Event.refreshFilePaths bs.id,
             Event.refreshFilePaths fs.id,
             Event.broadcastStatus m2,
             Event.chatUpdate chat_id "assistant",
             Event.assignStatus bs.id .READY,
             Event.assignStatus fs.id .READY,
             Event.broadcastStatus m4])

/-- The three ways one execution of `_manage_sandbox` can end: the body returns
(`success`), `SandboxNotReadyException` is raised (`notReady`), or any other
exception is raised (`failure`). -/
inductive AttemptOutcome where
  | success
  | notReady
  | failure
deriving DecidableEq, Repr

/-- One execution of `ProjectManager._manage_sandbox` (lines 209-253) for one
service, given how its awaited calls end.  On success the sandbox is stored with
`ready = True`, the status becomes `READY`, listings are refreshed and the status
is broadcast.  On `SandboxNotReadyException` the status becomes `BUILDING_WAITING`,
the status is broadcast, the task sleeps 10 seconds and reschedules itself.  On
any other exception the status becomes `OFFLINE`, the status is broadcast, the
task sleeps 30 seconds and reschedules itself. -/
def manageSandboxAttempt (pm : PMState) (service : Service) (outcome : AttemptOutcome) :
    PMState × List Event :=
  match outcome with
  | .success =>
      let m := dictSet pm.sandbox_statuses service.id .READY
      ({ pm with sandboxes := dictSet pm.sandboxes service.id true,
                 sandbox_statuses := m },
       [Event.assignStatus service.id .READY,
        Event.refreshFilePaths service.id,
        Event.broadcastStatus m])
  | .notReady =>
      let m := dictSet pm.sandbox_statuses service.id .BUILDING_WAITING
      ({ pm with sandbox_statuses := m },
       [Event.assignStatus service.id .BUILDING_WAITING,
        Event.broadcastStatus m,
        Event.sleep 10,
        Event.scheduleRetry])
  | .failure =>
      let m := dictSet pm.sandbox_statuses service.id .OFFLINE
      ({ pm with sandbox_statuses := m },
       [Event.assignStatus service.id .OFFLINE,
        Event.broadcastStatus m,
        Event.sleep 30,
        Event.scheduleRetry])

/-- The self-rescheduling retry loop of `_manage_sandbox`: the task reruns after
every `notReady` or `failure` outcome and stops only when an attempt succeeds.
The argument lists the outcomes of the successive attempts. -/
def manageSandboxRun (pm : PMState) (service : Service) :
    List AttemptOutcome → PMState × List Event
  | [] => (pm, [])
  | o :: rest =>
      let r1 := manageSandboxAttempt pm service o
      match o with
      | .success => r1
      | .notReady =>
          let r2 := manageSandboxRun r1.1 service rest
          (r2.1, r1.2 ++ r2.2)
      | .failure =>
          let r2 := manageSandboxRun r1.1 service rest
          (r2.1, r1.2 ++ r2.2)

/-- The loop body of `ProjectManager._try_manage_sandboxes` (lines 200-207): for
each service, set its status to `BUILDING`, broadcast the status, and spawn
`_manage_sandbox` as a background task (the spawned attempts are modelled by
`manageSandboxAttempt` / `manageSandboxRun`). -/
def tryManageSandboxesLoop (pm : PMState) : List Service → PMState × List Event
  | [] => (pm, [])
  | svc :: rest =>
      let m := dictSet pm.sandbox_statuses svc.id .BUILDING
      let r := tryManageSandboxesLoop { pm with sandbox_statuses := m } rest
      (r.1, Event.assignStatus svc.id .BUILDING :: Event.broadcastStatus m :: r.2)

/-- The sandbox-teardown loop of `ProjectManager.kill` (lines 156-162): for each
stored sandbox, set its status to `BUILDING` (the transitional teardown value),
broadcast the status, and terminate the sandbox. -/
def killLoop (pm : PMState) : List Nat → PMState × List Event
  | [] => (pm, [])
  | sid :: rest =>
      let m := dictSet pm.sandbox_statuses sid .BUILDING
      let r := killLoop { pm with sandbox_statuses := m } rest
      (r.1,
       Event.assignStatus sid .BUILDING :: Event.broadcastStatus m ::
         Event.terminateSandbox sid :: r.2)

/-- `ProjectManager.is_inactive` (lines 141-149): inactive iff the `chat_sockets`
dict is empty and strictly more than `timeout_minutes` minutes have elapsed since
`last_activity`.  Times are in seconds. -/
def is_inactive (pm : PMState) (now : Nat) (timeout_minutes : Nat) : Bool :=
  if pm.chat_sockets.length = 0 then
    decide (now - pm.last_activity > timeout_minutes * 60)
  else
    false

/-- The number of live listener connections across all chats of the project. -/
def totalListeners (pm : PMState) : Nat :=
  (pm.chat_sockets.map (fun p => p.2.length)).sum

/-- `tasks.cleanup_inactive_project_managers` reclaims a manager iff
`manager.is_inactive()` holds with the default 30-minute timeout. -/
def cleanupReclaims (pm : PMState) (now : Nat) : Bool :=
  is_inactive pm now 30

/-- `ProjectManager.emit_chat` (lines 489-506): if the chat id is not a key of
`chat_sockets` it returns; otherwise it snapshots the socket list and sends to
each socket, and every socket whose send raises is removed from the live list
(the `ValueError` of a double removal is swallowed).  `fails s` states that the
send to socket `s` raises.  The chat key itself is never deleted. -/
def emit_chat (pm : PMState) (chat_id : Nat) (fails : Nat → Bool) : PMState :=
  match dictGet pm.chat_sockets chat_id with
  | none => pm
  | some socks =>
      { pm with chat_sockets :=
          dictSet pm.chat_sockets chat_id (socks.filter (fun s => !(fails s))) }

/-- Python `list.remove(y)` restricted to its effect (first occurrence removed;
the `ValueError` it raises when `y` is absent is caught by the caller below). -/
def removeFirst : List Nat → Nat → List Nat
  | [], _ => []
  | x :: rest, y => if x = y then rest else x :: removeFirst rest y

/-- `ProjectManager.remove_chat_socket` (lines 313-323).  The subscript
`self.chat_sockets[chat_id]` raises `KeyError` when the key is absent, and only
`ValueError` (an absent socket in the list) is caught; when the list becomes
empty the chat's keys are deleted. -/
def remove_chat_socket (pm : PMState) (chat_id : Nat) (ws : Nat) :
    Except PyError PMState :=
  match dictGet pm.chat_sockets chat_id with
  | none => .error (.keyError chat_id)
  | some socks =>
      let socks2 := removeFirst socks ws
      if socks2.length = 0 then
        .ok { pm with chat_sockets := dictErase pm.chat_sockets chat_id }
      else
        .ok { pm with chat_sockets := dictSet pm.chat_sockets chat_id socks2 }

/-- `ProjectManager.add_chat_socket` (lines 267-311).  `projectFound` states that
the DB query at line 271 returned the project, and `hasBoth` that both a frontend
and a backend service exist; when either fails the method closes the socket and
returns WITHOUT registering the connection (the early returns at lines 275 and
290).  Otherwise the socket is appended and the current status is broadcast. -/
def add_chat_socket (pm : PMState) (projectFound : Bool) (hasBoth : Bool)
    (chat_id : Nat) (ws : Nat) (now : Nat) : PMState × List Event :=
  let pm0 := { pm with last_activity := now }
  match dictGet pm0.chat_sockets chat_id with
  | none =>
      if projectFound = false then (pm0, [Event.closeSocket ws])
      else if hasBoth = false then (pm0, [Event.closeSocket ws])
      else
        ({ pm0 with chat_sockets := dictSet pm0.chat_sockets chat_id [ws] },
         [Event.broadcastStatus pm0.sandbox_statuses])
  | some socks =>
      ({ pm0 with chat_sockets := dictSet pm0.chat_sockets chat_id (socks ++ [ws]) },
       [Event.broadcastStatus pm0.sandbox_statuses])

/-- The single `asyncio.Lock` created in `ProjectManager.__init__`
(`self.lock: Lock = Lock()`, line 125).  A `ProjectManager` holds exactly one
lock object, identified here by `lockId`. -/
structure PMLock where
  lockId : Nat
deriving DecidableEq, Repr

/-- The lock that `on_chat_message` acquires (`async with self.lock`, line 328)
for a message to the given chat: it is `self.lock`, independent of the chat. -/
def onChatMessageLock (lk : PMLock) (chat_id : Nat) : Nat :=
  lk.lockId

/-- The chats of one project whose turn currently holds its acquired lock. -/
structure TurnSched where
  inFlight : List Nat
deriving DecidableEq, Repr

/-- Whether a turn for `chat_id` can begin while the turns in `sched` are in
flight: `async with` can acquire only a lock no in-flight turn holds. -/
def canStartTurn (lk : PMLock) (sched : TurnSched) (chat_id : Nat) : Bool :=
  sched.inFlight.all (fun c => onChatMessageLock lk c != onChatMessageLock lk chat_id)

/-- `ProjectManager.on_chat_message` (lines 325-329): update `last_activity`,
then run `_handle_chat_message` under `async with self.lock`.  The second
component records whether the lock is still held after the call returns:
`async with` releases on both normal and exceptional exit, so it is `false`
whatever the body did. -/
def onChatMessageRun (pm : PMState) (proj : Project) (chat_id : Nat)
    (agents_present : Bool) (now : Nat) :
    (Except PyError PMState × List Event) × Bool :=
  (handleChatMessage { pm with last_activity := now } proj chat_id agents_present,
   false)

/-- An entry of the tool list built for the execute phase (`AgentTool` from
`agents/providers.py`), restricted to its name and (abstracted) result. -/
structure AgentTool where
  name : String
  result : String
deriving DecidableEq, Repr

/-- `Agent._handle_tool_call` (agents/agent.py lines 304-313): find the first
tool whose name matches; when none matches, raise
`ValueError(f"Unknown tool called: {tool_name}")`; otherwise invoke the tool. -/
def handleToolCall (tools : List AgentTool) (tool_name : String) :
    Except String String :=
  match tools.find? (fun t => t.name == tool_name) with
  | none => .error ("Unknown tool called: " ++ tool_name)
  | some t => .ok t.result

/-- `_apply_and_lint_and_commit` (project_socket.py lines 88-110): apply the
collected diffs, run the lint pass when `/app/frontend/.eslintrc.json` exists
(applying ESLint fixes when the output contains "Error:"), then generate a
commit message from `diff_applier.total_content` and commit. -/
def applyAndLintAndCommit (has_lint_file : Bool) (lint_has_errors : Bool) :
    List Event :=
  [Event.applyDiffs]
    ++ (if has_lint_file then
          Event.lintRun :: (if lint_has_errors then [Event.applyLintFixes] else [])
        else [])
    ++ [Event.commitCall]

/-- The per-service sequence of statuses assigned along a trace. -/
def statusSeq (trace : List Event) (service : Nat) : List SandboxStatus :=
  trace.filterMap (fun e =>
    match e with
    | .assignStatus s v => if s = service then some v else none
    | _ => none)

/-- The consecutive status transitions produced by a sequence of assignments,
starting from a given current status. -/
def edgesFrom : SandboxStatus → List SandboxStatus → List (SandboxStatus × SandboxStatus)
  | _, [] => []
  | cur, v :: rest => (cur, v) :: edgesFrom v rest

/-- The transition edges the claim allows: `OFFLINE→BUILDING`,
`BUILDING→BUILDING_WAITING`, `BUILDING→READY`, `BUILDING_WAITING→READY`,
`BUILDING_WAITING→OFFLINE`, `READY→WORKING`, `WORKING→WORKING_APPLYING`,
`WORKING_APPLYING→READY`, and any→`OFFLINE` on hard failure. -/
def claimedEdge : SandboxStatus → SandboxStatus → Bool
  | _, .OFFLINE => true
  | .OFFLINE, .BUILDING => true
  | .BUILDING, .BUILDING_WAITING => true
  | .BUILDING, .READY => true
  | .BUILDING_WAITING, .READY => true
  | .READY, .WORKING => true
  | .WORKING, .WORKING_APPLYING => true
  | .WORKING_APPLYING, .READY => true
  | _, _ => false

/-- Replay a trace against a status map: `true` iff every `broadcastStatus`
payload equals the map obtained from all `assignStatus` events before it, i.e.
every broadcast shows only statuses already committed to the map. -/
def broadcastsCommitted : List (Nat × SandboxStatus) → List Event → Bool
  | _, [] => true
  | m, Event.assignStatus s v :: rest => broadcastsCommitted (dictSet m s v) rest
  | m, Event.broadcastStatus p :: rest => decide (p = m) && broadcastsCommitted m rest
  | m, _ :: rest => broadcastsCommitted m rest

/-- The status map after replaying the `assignStatus` events of a trace. -/
def applyAssigns : List (Nat × SandboxStatus) → List Event → List (Nat × SandboxStatus)
  | m, [] => m
  | m, Event.assignStatus s v :: rest => applyAssigns (dictSet m s v) rest
  | m, _ :: rest => applyAssigns m rest

/-- Count the events of a trace satisfying a predicate. -/
def countEvent (trace : List Event) (p : Event → Bool) : Nat :=
  (trace.filter p).length

def isCommit : Event → Bool
  | .commitCall => true
  | _ => false

def isRetry : Event → Bool
  | .scheduleRetry => true
  | _ => false

def isAssistantPersist : Event → Bool
  | .persistMessage r => r == "assistant"
  | _ => false

/-- Whether every status assigned along a trace satisfies `allowed`. -/
def assignedStatusesIn (trace : List Event) (allowed : SandboxStatus → Bool) : Bool :=
  trace.all (fun e =>
    match e with
    | .assignStatus _ v => allowed v
    | _ => true)

/-- The statuses other than `WORKING_APPLYING`. -/
def notWorkingApplying (v : SandboxStatus) : Bool :=
  decide (v ≠ SandboxStatus.WORKING_APPLYING)

/-- The single transitional teardown value `kill` assigns. -/
def isBuildingStatus (v : SandboxStatus) : Bool :=
  decide (v = SandboxStatus.BUILDING)

/-- A concrete project: service 1 is the backend, service 2 the frontend. -/
def proj0 : Project :=
  { id := 5, services := [{ id := 1, service_type := .BACKEND },
                          { id := 2, service_type := .FRONTEND }] }

/-- A concrete manager state: chat 7 has one listener, both sandboxes are
stored and ready, both services are `READY`. -/
def pm0 : PMState :=
  { chat_sockets := [(7, [100])],
    sandbox_statuses := [(1, .READY), (2, .READY)],
    sandboxes := [(1, true), (2, true)],
    last_activity := 0 }

/-- A concrete manager state whose backend sandbox is missing (`OFFLINE`). -/
def pmOffline : PMState :=
  { chat_sockets := [(7, [100])],
    sandbox_statuses := [(1, .OFFLINE), (2, .READY)],
    sandboxes := [(2, true)],
    last_activity := 0 }

/-! Helper lemmas about the dictionary operations and the traces. -/

theorem dictGet_dictSet_self {α : Type} (m : List (Nat × α)) (k : Nat) (v : α) :
    dictGet (dictSet m k v) k = some v := by
  induction m with
  | nil => simp [dictSet, dictGet]
  | cons p rest ih =>
      obtain ⟨k2, v2⟩ := p
      by_cases h : k2 = k
      · simp [dictSet, dictGet, h]
      · simp [dictSet, dictGet, h, ih]

theorem length_dictSet_of_get_some {α : Type} (m : List (Nat × α)) (k : Nat)
    (v w : α) (h : dictGet m k = some v) : (dictSet m k w).length = m.length := by
  induction m with
  | nil => simp [dictGet] at h
  | cons p rest ih =>
      obtain ⟨k2, v2⟩ := p
      by_cases hk : k2 = k
      · simp [dictSet, hk]
      · simp [dictGet, hk] at h
        simp [dictSet, hk, ih h]

theorem dictGet_some_ne_nil {α : Type} (m : List (Nat × α)) (k : Nat) (v : α)
    (h : dictGet m k = some v) : m ≠ [] := by
  intro hnil
  rw [hnil] at h
  simp [dictGet] at h

theorem findService_type (proj : Project) (t : ServiceType) (s : Service)
    (h : findService proj t = some s) : s.service_type = t := by
  have h2 := List.find?_some h
  simpa using h2

theorem countEvent_append (t1 t2 : List Event) (p : Event → Bool) :
    countEvent (t1 ++ t2) p = countEvent t1 p + countEvent t2 p := by
  simp [countEvent, List.filter_append]

theorem countRetry_run (service : Service) :
    ∀ (outcomes : List AttemptOutcome) (pm : PMState),
      (∀ o ∈ outcomes, o ≠ AttemptOutcome.success) →
      countEvent (manageSandboxRun pm service outcomes).2 isRetry = outcomes.length := by
  intro outcomes
  induction outcomes with
  | nil => intro pm _; rfl
  | cons o rest ih =>
      intro pm h
      have ho : o ≠ AttemptOutcome.success := h o (List.mem_cons_self o rest)
      have hrest : ∀ o2 ∈ rest, o2 ≠ AttemptOutcome.success :=
        fun o2 h2 => h o2 (List.mem_cons_of_mem o h2)
      cases o with
      | success => exact absurd rfl ho
      | notReady =>
          have : (manageSandboxRun pm service (AttemptOutcome.notReady :: rest)).2 =
              (manageSandboxAttempt pm service .notReady).2 ++
                (manageSandboxRun (manageSandboxAttempt pm service .notReady).1
                  service rest).2 := rfl
          rw [this, countEvent_append, ih _ hrest]
          have h1 : countEvent (manageSandboxAttempt pm service .notReady).2 isRetry = 1 := rfl
          rw [h1, List.length_cons]
          omega
      | failure =>
          have : (manageSandboxRun pm service (AttemptOutcome.failure :: rest)).2 =
              (manageSandboxAttempt pm service .failure).2 ++
                (manageSandboxRun (manageSandboxAttempt pm service .failure).1
                  service rest).2 := rfl
          rw [this, countEvent_append, ih _ hrest]
          have h1 : countEvent (manageSandboxAttempt pm service .failure).2 isRetry = 1 := rfl
          rw [h1, List.length_cons]
          omega

/-- **C5** — On a `SandboxNotReadyException` the sandbox-management task sets the
service's status to `BUILDING_WAITING`, broadcasts, sleeps 10 seconds and
reschedules itself; on any other exception it sets the status to `OFFLINE`,
broadcasts, sleeps 30 seconds and reschedules itself; every failed attempt
schedules another attempt, so a run of failing attempts of any length schedules
exactly one retry per attempt and never reaches a dead-letter state. -/
theorem C5_retry_policy (pm : PMState) (service : Service)
    (outcomes : List AttemptOutcome)
    (hfail : ∀ o ∈ outcomes, o ≠ AttemptOutcome.success) :
    (manageSandboxAttempt pm service .notReady).2 =
      [Event.assignStatus service.id .BUILDING_WAITING,
       Event.broadcastStatus (dictSet pm.sandbox_statuses service.id .BUILDING_WAITING),
       Event.sleep 10, Event.scheduleRetry]
    ∧ (manageSandboxAttempt pm service .failure).2 =
      [Event.assignStatus service.id .OFFLINE,
       Event.broadcastStatus (dictSet pm.sandbox_statuses service.id .OFFLINE),
       Event.sleep 30, Event.scheduleRetry]
    ∧ countEvent (manageSandboxRun pm service outcomes).2 isRetry = outcomes.length :=
  ⟨rfl, rfl, countRetry_run service outcomes pm hfail⟩

/-- Witness for C5 at a concrete state: two failing attempts schedule two retries. -/
theorem C5_retry_policy_witness :
    countEvent (manageSandboxRun pm0 { id := 1, service_type := .BACKEND }
      [AttemptOutcome.notReady, AttemptOutcome.failure]).2 isRetry = 2 :=
  (C5_retry_policy pm0 { id := 1, service_type := .BACKEND }
    [AttemptOutcome.notReady, AttemptOutcome.failure] (by decide)).2.2

/-- **C6** — A tool call naming a tool that is in no entry of the turn's tool
list makes `Agent._handle_tool_call` raise
`ValueError("Unknown tool called: <name>")` (no silent skip); the chat lock is
released after `on_chat_message` returns whatever its body did, and a turn can
start once no turn is in flight. -/
theorem C6_unknown_tool_fatal (tools : List AgentTool) (tool_name : String)
    (h : ∀ t ∈ tools, t.name ≠ tool_name) :
    handleToolCall tools tool_name = .error ("Unknown tool called: " ++ tool_name)
    ∧ (∀ pm proj chat ap now, (onChatMessageRun pm proj chat ap now).2 = false)
    ∧ (∀ lk chat, canStartTurn lk { inFlight := [] } chat = true) := by
  refine ⟨?_, fun _ _ _ _ _ => rfl, fun _ _ => rfl⟩
  unfold handleToolCall
  have hnone : tools.find? (fun t => t.name == tool_name) = none := by
    rw [List.find?_eq_none]
    intro t ht
    simpa using h t ht
  rw [hnone]

/-- Witness for C6: dispatching the unknown tool name "frobnicate" against the
execute-phase tool list raises the fatal error. -/
theorem C6_unknown_tool_fatal_witness :
    handleToolCall [{ name := "run_command", result := "r" },
                    { name := "navigate_to", result := "n" }] "frobnicate" =
      .error ("Unknown tool called: " ++ "frobnicate") :=
  (C6_unknown_tool_fatal [{ name := "run_command", result := "r" },
                          { name := "navigate_to", result := "n" }] "frobnicate"
    (by decide)).1

/-- **C7** — `is_inactive` returns `false` whenever at least one listener is
registered for any chat, regardless of elapsed time; and it returns `true` only
when there are zero live listeners across all chats and the elapsed time since
`last_activity` strictly exceeds the timeout. -/
theorem C7_is_inactive_spec (pm : PMState) (now t : Nat) :
    ((∃ c socks, dictGet pm.chat_sockets c = some socks ∧ socks ≠ []) →
        is_inactive pm now t = false)
    ∧ (is_inactive pm now t = true →
        totalListeners pm = 0 ∧ now - pm.last_activity > t * 60) := by
  constructor
  · rintro ⟨c, socks, hget, -⟩
    have hne : pm.chat_sockets ≠ [] := dictGet_some_ne_nil _ _ _ hget
    simp [is_inactive, List.length_eq_zero, hne]
  · intro h
    by_cases hl : pm.chat_sockets.length = 0
    · have hnil : pm.chat_sockets = [] := List.length_eq_zero.mp hl
      refine ⟨by simp [totalListeners, hnil], ?_⟩
      simp [is_inactive, hl] at h
      exact h
    · simp [is_inactive, hl] at h

/-- Witness for C7: with one registered listener the manager is not inactive
even after a very long time. -/
theorem C7_is_inactive_spec_witness :
    is_inactive pm0 1000000 30 = false :=
  (C7_is_inactive_spec pm0 1000000 30).1 ⟨7, [100], by decide, by decide⟩

/-- **C9** — When send failures during a broadcast make `emit_chat` drop every
socket of a chat, the chat's key stays in `chat_sockets` mapped to the empty
list (sockets are removed, the key never is), so `is_inactive` returns `false`
for every elapsed time even though zero live listeners remain, and the cleanup
sweep never reclaims the manager. -/
theorem C9_empty_chat_key_leak (pm : PMState) (chat_id : Nat) (socks : List Nat)
    (fails : Nat → Bool)
    (hget : dictGet pm.chat_sockets chat_id = some socks)
    (hall : socks.filter (fun s => !(fails s)) = []) :
    dictGet (emit_chat pm chat_id fails).chat_sockets chat_id = some []
    ∧ (emit_chat pm chat_id fails).chat_sockets.length = pm.chat_sockets.length
    ∧ (∀ now t, is_inactive (emit_chat pm chat_id fails) now t = false)
    ∧ (∀ now, cleanupReclaims (emit_chat pm chat_id fails) now = false) := by
  have hpm : emit_chat pm chat_id fails =
      { pm with chat_sockets := dictSet pm.chat_sockets chat_id [] } := by
    simp [emit_chat, hget, hall]
  have hlen : (dictSet pm.chat_sockets chat_id ([] : List Nat)).length =
      pm.chat_sockets.length :=
    length_dictSet_of_get_some _ _ _ _ hget
  have hne : pm.chat_sockets ≠ [] := dictGet_some_ne_nil _ _ _ hget
  have hlen0 : (dictSet pm.chat_sockets chat_id ([] : List Nat)).length ≠ 0 := by
    rw [hlen]
    simpa [List.length_eq_zero] using hne
  refine ⟨?_, ?_, ?_, ?_⟩
  · rw [hpm]
    exact dictGet_dictSet_self _ _ _
  · rw [hpm]
    exact hlen
  · intro now t
    rw [hpm]
    simp [is_inactive, hlen0]
  · intro now
    rw [hpm]
    simp [cleanupReclaims, is_inactive, hlen0]

/-- Witness for C9: chat 7's only socket fails during a broadcast; the key stays
with an empty list and the cleanup sweep does not reclaim the manager. -/
theorem C9_empty_chat_key_leak_witness :
    dictGet (emit_chat pm0 7 (fun _ => true)).chat_sockets 7 = some []
    ∧ cleanupReclaims (emit_chat pm0 7 (fun _ => true)) 999999 = false := by
  have h := C9_empty_chat_key_leak pm0 7 [100] (fun _ => true) (by decide) (by decide)
  exact ⟨h.1, h.2.2.2 999999⟩

/-- **C10** — For a `chat_id` with no entry in `chat_sockets`,
`remove_chat_socket` raises an uncaught `KeyError` (only the `ValueError` of
removing an absent socket is handled); the websocket endpoint's cleanup path
reaches this state when `add_chat_socket` returned early (project not found)
without registering the connection.  When the key exists, the call never raises,
even if the socket is absent from the list. -/
theorem C10_remove_unregistered_keyerror (pm : PMState) (chat_id ws : Nat)
    (h : dictGet pm.chat_sockets chat_id = none) :
    remove_chat_socket pm chat_id ws = .error (.keyError chat_id)
    ∧ (∀ hb now,
        remove_chat_socket (add_chat_socket pm false hb chat_id ws now).1 chat_id ws =
          .error (.keyError chat_id))
    ∧ (∀ (pm2 : PMState) (socks : List Nat),
        dictGet pm2.chat_sockets chat_id = some socks →
        ∃ pmr, remove_chat_socket pm2 chat_id ws = .ok pmr) := by
  refine ⟨?_, ?_, ?_⟩
  · simp [remove_chat_socket, h]
  · intro hb now
    have hadd : (add_chat_socket pm false hb chat_id ws now).1 =
        { pm with last_activity := now } := by
      simp [add_chat_socket, h]
    rw [hadd]
    simp [remove_chat_socket, h]
  · intro pm2 socks hget
    by_cases hz : (removeFirst socks ws).length = 0
    · exact ⟨{ pm2 with chat_sockets := dictErase pm2.chat_sockets chat_id },
        by simp [remove_chat_socket, hget, hz]⟩
    · exact ⟨{ pm2 with chat_sockets := dictSet pm2.chat_sockets chat_id (removeFirst socks ws) },
        by simp [remove_chat_socket, hget, hz]⟩

/-- Witness for C10: removing a socket for the unregistered chat 9 raises
`KeyError(9)`. -/
theorem C10_remove_unregistered_keyerror_witness :
    remove_chat_socket pm0 9 100 = .error (.keyError 9) :=
  (C10_remove_unregistered_keyerror pm0 9 100 (by decide)).1

/-- **C4** — When a message arrives while the backend sandbox is missing or not
ready, the handler assigns `OFFLINE`, broadcasts the committed status map, and
broadcasts the error event `{"error": "Backend sandbox is not running."}` to the
chat; no agent turn runs (no `WORKING` assignment, no orchestrator call) and no
commit call occurs. -/
theorem C4_offline_backend_error (pm : PMState) (proj : Project) (chat_id : Nat)
    (ap : Bool) (bs fs : Service)
    (hb : findService proj .BACKEND = some bs)
    (hf : findService proj .FRONTEND = some fs)
    (hnr : sandboxReady pm bs.id = false) :
    (handleChatMessage pm proj chat_id ap).2 =
      [Event.assignStatus bs.id .OFFLINE,
       Event.broadcastStatus (dictSet pm.sandbox_statuses bs.id .OFFLINE),
       Event.chatError chat_id "Backend sandbox is not running."]
    ∧ countEvent (handleChatMessage pm proj chat_id ap).2 isCommit = 0
    ∧ Event.runOrchestrator ∉ (handleChatMessage pm proj chat_id ap).2
    ∧ (∀ s, Event.assignStatus s .WORKING ∉ (handleChatMessage pm proj chat_id ap).2) := by
  have hty : bs.service_type = .BACKEND := findService_type _ _ _ hb
  have hmsg : bs.service_type.value ++ " sandbox is not running." =
      "Backend sandbox is not running." := by
    rw [hty]
    decide
  have htrace : (handleChatMessage pm proj chat_id ap).2 =
      [Event.assignStatus bs.id .OFFLINE,
       Event.broadcastStatus (dictSet pm.sandbox_statuses bs.id .OFFLINE),
       Event.chatError chat_id "Backend sandbox is not running."] := by
    simp [handleChatMessage, hb, hf, hnr, hmsg]
  refine ⟨htrace, ?_, ?_, ?_⟩
  · rw [htrace]; rfl
  · rw [htrace]; simp
  · intro s; rw [htrace]; simp

/-- Witness for C4 at a concrete state whose backend sandbox is missing. -/
theorem C4_offline_backend_error_witness :
    (handleChatMessage pmOffline proj0 7 true).2 =
      [Event.assignStatus 1 .OFFLINE,
       Event.broadcastStatus [(1, .OFFLINE), (2, .READY)],
       Event.chatError 7 "Backend sandbox is not running."] :=
  (C4_offline_backend_error pmOffline proj0 7 true
    { id := 1, service_type := .BACKEND } { id := 2, service_type := .FRONTEND }
    (by decide) (by decide) (by decide)).1

theorem broadcastsCommitted_append (t1 t2 : List Event) :
    ∀ m, broadcastsCommitted m (t1 ++ t2) =
      (broadcastsCommitted m t1 && broadcastsCommitted (applyAssigns m t1) t2) := by
  induction t1 with
  | nil => intro m; simp [broadcastsCommitted, applyAssigns]
  | cons e rest ih =>
      intro m
      cases e <;> simp [broadcastsCommitted, applyAssigns, ih, Bool.and_assoc]

theorem committed_attempt (pm : PMState) (svc : Service) (o : AttemptOutcome) :
    broadcastsCommitted pm.sandbox_statuses (manageSandboxAttempt pm svc o).2 = true := by
  cases o <;> simp [manageSandboxAttempt, broadcastsCommitted]

theorem assigns_attempt (pm : PMState) (svc : Service) (o : AttemptOutcome) :
    applyAssigns pm.sandbox_statuses (manageSandboxAttempt pm svc o).2 =
      (manageSandboxAttempt pm svc o).1.sandbox_statuses := by
  cases o <;> simp [manageSandboxAttempt, applyAssigns]

theorem committed_run (svc : Service) :
    ∀ (outcomes : List AttemptOutcome) (pm : PMState),
      broadcastsCommitted pm.sandbox_statuses (manageSandboxRun pm svc outcomes).2 = true := by
  intro outcomes
  induction outcomes with
  | nil => intro pm; rfl
  | cons o rest ih =>
      intro pm
      cases o with
      | success => exact committed_attempt pm svc .success
      | notReady =>
          have h : (manageSandboxRun pm svc (AttemptOutcome.notReady :: rest)).2 =
              (manageSandboxAttempt pm svc .notReady).2 ++
                (manageSandboxRun (manageSandboxAttempt pm svc .notReady).1 svc rest).2 := rfl
          rw [h, broadcastsCommitted_append, committed_attempt, assigns_attempt, ih]
          rfl
      | failure =>
          have h : (manageSandboxRun pm svc (AttemptOutcome.failure :: rest)).2 =
              (manageSandboxAttempt pm svc .failure).2 ++
                (manageSandboxRun (manageSandboxAttempt pm svc .failure).1 svc rest).2 := rfl
          rw [h, broadcastsCommitted_append, committed_attempt, assigns_attempt, ih]
          rfl

theorem committed_tryLoop :
    ∀ (svcs : List Service) (pm : PMState),
      broadcastsCommitted pm.sandbox_statuses (tryManageSandboxesLoop pm svcs).2 = true := by
  intro svcs
  induction svcs with
  | nil => intro pm; rfl
  | cons svc rest ih =>
      intro pm
      have h := ih { pm with sandbox_statuses := dictSet pm.sandbox_statuses svc.id .BUILDING }
      simp only [tryManageSandboxesLoop]
      simp [broadcastsCommitted]
      exact h

theorem committed_killLoop :
    ∀ (sids : List Nat) (pm : PMState),
      broadcastsCommitted pm.sandbox_statuses (killLoop pm sids).2 = true := by
  intro sids
  induction sids with
  | nil => intro pm; rfl
  | cons sid rest ih =>
      intro pm
      have h := ih { pm with sandbox_statuses := dictSet pm.sandbox_statuses sid .BUILDING }
      simp only [killLoop]
      simp [broadcastsCommitted]
      exact h

theorem committed_handle (pm : PMState) (proj : Project) (chat : Nat) (ap : Bool) :
    broadcastsCommitted pm.sandbox_statuses (handleChatMessage pm proj chat ap).2 = true := by
  rcases hb : findService proj .BACKEND with _ | bs <;>
    rcases hf : findService proj .FRONTEND with _ | fs
  · simp [handleChatMessage, hb, hf, broadcastsCommitted]
  · simp [handleChatMessage, hb, hf, broadcastsCommitted]
  · simp [handleChatMessage, hb, hf, broadcastsCommitted]
  · by_cases hr1 : sandboxReady pm bs.id = false
    · simp [handleChatMessage, hb, hf, hr1, broadcastsCommitted]
    · by_cases hr2 : sandboxReady pm fs.id = false
      · simp [handleChatMessage, hb, hf, hr1, hr2, broadcastsCommitted]
      · by_cases hap : ap = false
        · simp [handleChatMessage, hb, hf, hr1, hr2, hap, broadcastsCommitted]
        · simp [handleChatMessage, hb, hf, hr1, hr2, hap, broadcastsCommitted]

theorem committed_add (pm : PMState) (pf hb : Bool) (chat ws now : Nat) :
    broadcastsCommitted pm.sandbox_statuses (add_chat_socket pm pf hb chat ws now).2 = true := by
  rcases hg : dictGet pm.chat_sockets chat with _ | socks <;>
    cases pf <;> cases hb <;>
      simp [add_chat_socket, hg, broadcastsCommitted]

/-- **C8** — Every status broadcast issued through `emit_project` (by the chat
handler, the sandbox-management tasks, `kill`, and `add_chat_socket`) carries
exactly the statuses already assigned to the in-memory `sandbox_statuses` map
before the broadcast was issued: replaying each produced trace, every
`broadcastStatus` payload equals the map built from the `assignStatus` events
that precede it. -/
theorem C8_broadcasts_committed :
    (∀ (pm : PMState) (proj : Project) (chat : Nat) (ap : Bool),
        broadcastsCommitted pm.sandbox_statuses (handleChatMessage pm proj chat ap).2 = true)
    ∧ (∀ (pm : PMState) (svc : Service) (o : AttemptOutcome),
        broadcastsCommitted pm.sandbox_statuses (manageSandboxAttempt pm svc o).2 = true)
    ∧ (∀ (pm : PMState) (svc : Service) (outcomes : List AttemptOutcome),
        broadcastsCommitted pm.sandbox_statuses (manageSandboxRun pm svc outcomes).2 = true)
    ∧ (∀ (pm : PMState) (svcs : List Service),
        broadcastsCommitted pm.sandbox_statuses (tryManageSandboxesLoop pm svcs).2 = true)
    ∧ (∀ (pm : PMState) (sids : List Nat),
        broadcastsCommitted pm.sandbox_statuses (killLoop pm sids).2 = true)
    ∧ (∀ (pm : PMState) (pf hb : Bool) (chat ws now : Nat),
        broadcastsCommitted pm.sandbox_statuses (add_chat_socket pm pf hb chat ws now).2 = true) :=
  ⟨committed_handle,
   committed_attempt,
   fun pm svc outcomes => committed_run svc outcomes pm,
   fun pm svcs => committed_tryLoop svcs pm,
   fun pm sids => committed_killLoop sids pm,
   committed_add⟩

theorem assignedStatusesIn_append (t1 t2 : List Event) (p : SandboxStatus → Bool) :
    assignedStatusesIn (t1 ++ t2) p =
      (assignedStatusesIn t1 p && assignedStatusesIn t2 p) := by
  simp [assignedStatusesIn, List.all_append]

theorem noWA_handle (pm : PMState) (proj : Project) (chat : Nat) (ap : Bool) :
    assignedStatusesIn (handleChatMessage pm proj chat ap).2 notWorkingApplying = true := by
  rcases hb : findService proj .BACKEND with _ | bs <;>
    rcases hf : findService proj .FRONTEND with _ | fs
  · simp [handleChatMessage, hb, hf, assignedStatusesIn]
  · simp [handleChatMessage, hb, hf, assignedStatusesIn]
  · simp [handleChatMessage, hb, hf, assignedStatusesIn]
  · by_cases hr1 : sandboxReady pm bs.id = false
    · simp [handleChatMessage, hb, hf, hr1, assignedStatusesIn, notWorkingApplying]
    · by_cases hr2 : sandboxReady pm fs.id = false
      · simp [handleChatMessage, hb, hf, hr1, hr2, assignedStatusesIn, notWorkingApplying]
      · by_cases hap : ap = false
        · simp [handleChatMessage, hb, hf, hr1, hr2, hap, assignedStatusesIn, notWorkingApplying]
        · simp [handleChatMessage, hb, hf, hr1, hr2, hap, assignedStatusesIn, notWorkingApplying]

theorem noWA_attempt (pm : PMState) (svc : Service) (o : AttemptOutcome) :
    assignedStatusesIn (manageSandboxAttempt pm svc o).2 notWorkingApplying = true := by
  cases o <;> simp [manageSandboxAttempt, assignedStatusesIn, notWorkingApplying]

theorem noWA_run (svc : Service) :
    ∀ (outcomes : List AttemptOutcome) (pm : PMState),
      assignedStatusesIn (manageSandboxRun pm svc outcomes).2 notWorkingApplying = true := by
  intro outcomes
  induction outcomes with
  | nil => intro pm; rfl
  | cons o rest ih =>
      intro pm
      cases o with
      | success => exact noWA_attempt pm svc .success
      | notReady =>
          have h : (manageSandboxRun pm svc (AttemptOutcome.notReady :: rest)).2 =
              (manageSandboxAttempt pm svc .notReady).2 ++
                (manageSandboxRun (manageSandboxAttempt pm svc .notReady).1 svc rest).2 := rfl
          rw [h, assignedStatusesIn_append, noWA_attempt, ih]
          rfl
      | failure =>
          have h : (manageSandboxRun pm svc (AttemptOutcome.failure :: rest)).2 =
              (manageSandboxAttempt pm svc .failure).2 ++
                (manageSandboxRun (manageSandboxAttempt pm svc .failure).1 svc rest).2 := rfl
          rw [h, assignedStatusesIn_append, noWA_attempt, ih]
          rfl

theorem noWA_tryLoop :
    ∀ (svcs : List Service) (pm : PMState),
      assignedStatusesIn (tryManageSandboxesLoop pm svcs).2 notWorkingApplying = true := by
  intro svcs
  induction svcs with
  | nil => intro pm; rfl
  | cons svc rest ih =>
      intro pm
      have h := ih { pm with sandbox_statuses := dictSet pm.sandbox_statuses svc.id .BUILDING }
      simp only [tryManageSandboxesLoop]
      simp [assignedStatusesIn, notWorkingApplying] at h ⊢
      exact h

theorem noWA_killLoop :
    ∀ (sids : List Nat) (pm : PMState),
      assignedStatusesIn (killLoop pm sids).2 notWorkingApplying = true := by
  intro sids
  induction sids with
  | nil => intro pm; rfl
  | cons sid rest ih =>
      intro pm
      have h := ih { pm with sandbox_statuses := dictSet pm.sandbox_statuses sid .BUILDING }
      simp only [killLoop]
      simp [assignedStatusesIn, notWorkingApplying] at h ⊢
      exact h

theorem killLoop_building :
    ∀ (sids : List Nat) (pm : PMState),
      assignedStatusesIn (killLoop pm sids).2 isBuildingStatus = true := by
  intro sids
  induction sids with
  | nil => intro pm; rfl
  | cons sid rest ih =>
      intro pm
      have h := ih { pm with sandbox_statuses := dictSet pm.sandbox_statuses sid .BUILDING }
      simp only [killLoop]
      simp [assignedStatusesIn, isBuildingStatus] at h ⊢
      exact h

/-- **C1 counterexample** — At a concrete state where both sandboxes are ready,
one successful chat turn completes (final statuses back to `READY`), the backend
status sequence assigned during the turn is `WORKING, READY` — so the turn takes
the edge `WORKING→READY`, which is not in the claimed edge set, and never passes
through `WORKING_APPLYING`, contradicting the claimed
`READY→WORKING→WORKING_APPLYING→READY` path. -/
theorem C1_counterexample :
    (handleChatMessage pm0 proj0 7 true).1.toOption =
      some { chat_sockets := [(7, [100])],
             sandbox_statuses := [(1, .READY), (2, .READY)],
             sandboxes := [(1, true), (2, true)],
             last_activity := 0 }
    ∧ statusSeq (handleChatMessage pm0 proj0 7 true).2 1 = [.WORKING, .READY]
    ∧ edgesFrom .READY (statusSeq (handleChatMessage pm0 proj0 7 true).2 1) =
        [(.READY, .WORKING), (.WORKING, .READY)]
    ∧ claimedEdge .WORKING .READY = false
    ∧ SandboxStatus.WORKING_APPLYING ∉ statusSeq (handleChatMessage pm0 proj0 7 true).2 1 := by
  decide

/-- **C1 amended** — During one successful chat turn the backend service's status
passes `READY→WORKING→READY` in that order, taking the edge `WORKING→READY`
directly (an edge absent from the claimed set); a management attempt assigns
`READY` on success, `BUILDING_WAITING` on not-ready and `OFFLINE` on failure
whatever the prior status was — in particular, after a hard failure the retry
loop takes `OFFLINE→READY` and `OFFLINE→BUILDING_WAITING` directly; `kill`
assigns only `BUILDING` as its transitional teardown value; and
`WORKING_APPLYING` is assigned by none of the chat handler, the management
attempts and retry runs, the start loop, and `kill`. -/
theorem C1_amended_turn_edges (pm : PMState) (proj : Project) (chat_id : Nat)
    (bs fs : Service)
    (hb : findService proj .BACKEND = some bs)
    (hf : findService proj .FRONTEND = some fs)
    (hrb : sandboxReady pm bs.id = true)
    (hrf : sandboxReady pm fs.id = true)
    (hne : bs.id ≠ fs.id) :
    statusSeq (handleChatMessage pm proj chat_id true).2 bs.id = [.WORKING, .READY]
    ∧ edgesFrom .READY (statusSeq (handleChatMessage pm proj chat_id true).2 bs.id) =
        [(.READY, .WORKING), (.WORKING, .READY)]
    ∧ (∀ (pm2 : PMState) (svc : Service),
        statusSeq (manageSandboxAttempt pm2 svc .success).2 svc.id = [.READY]
        ∧ statusSeq (manageSandboxAttempt pm2 svc .notReady).2 svc.id = [.BUILDING_WAITING]
        ∧ statusSeq (manageSandboxAttempt pm2 svc .failure).2 svc.id = [.OFFLINE]
        ∧ edgesFrom .OFFLINE (statusSeq (manageSandboxAttempt pm2 svc .success).2 svc.id) =
            [(.OFFLINE, .READY)]
        ∧ edgesFrom .OFFLINE (statusSeq (manageSandboxAttempt pm2 svc .notReady).2 svc.id) =
            [(.OFFLINE, .BUILDING_WAITING)])
    ∧ (∀ (pm2 : PMState) (sids : List Nat),
        assignedStatusesIn (killLoop pm2 sids).2 isBuildingStatus = true)
    ∧ (∀ (pm2 : PMState) (proj2 : Project) (chat2 : Nat) (ap2 : Bool),
        assignedStatusesIn (handleChatMessage pm2 proj2 chat2 ap2).2 notWorkingApplying = true)
    ∧ (∀ (pm2 : PMState) (svc : Service) (o : AttemptOutcome),
        assignedStatusesIn (manageSandboxAttempt pm2 svc o).2 notWorkingApplying = true)
    ∧ (∀ (pm2 : PMState) (svc : Service) (outs : List AttemptOutcome),
        assignedStatusesIn (manageSandboxRun pm2 svc outs).2 notWorkingApplying = true)
    ∧ (∀ (pm2 : PMState) (svcs : List Service),
        assignedStatusesIn (tryManageSandboxesLoop pm2 svcs).2 notWorkingApplying = true)
    ∧ (∀ (pm2 : PMState) (sids : List Nat),
        assignedStatusesIn (killLoop pm2 sids).2 notWorkingApplying = true) := by
  have hr1 : ¬ sandboxReady pm bs.id = false := by simp [hrb]
  have hr2 : ¬ sandboxReady pm fs.id = false := by simp [hrf]
  have hne2 : fs.id ≠ bs.id := fun h => hne h.symm
  have htrace : (handleChatMessage pm proj chat_id true).2 =
      [Event.assignStatus bs.id .WORKING,
       Event.assignStatus fs.id .WORKING,
       Event.broadcastStatus (dictSet (dictSet pm.sandbox_statuses bs.id .WORKING) fs.id .WORKING),
       Event.persistMessage "user",
       Event.chatUpdate chat_id "user",
       Event.runOrchestrator,
       Event.writeFiles bs.id,
       Event.writeFiles fs.id,
       Event.persistMessage "assistant",
       Event.refreshFilePaths bs.id,
       Event.refreshFilePaths fs.id,
       Event.broadcastStatus (dictSet (dictSet pm.sandbox_statuses bs.id .WORKING) fs.id .WORKING),
       Event.chatUpdate chat_id "assistant",
       Event.assignStatus bs.id .READY,
       Event.assignStatus fs.id .READY,
       Event.broadcastStatus (dictSet (dictSet (dictSet (dictSet pm.sandbox_statuses bs.id .WORKING) fs.id .WORKING) bs.id .READY) fs.id .READY)] := by
    simp [handleChatMessage, hb, hf, hr1, hr2]
  refine ⟨?_, ?_, ?_,
    fun pm2 sids => killLoop_building sids pm2,
    noWA_handle,
    noWA_attempt,
    fun pm2 svc outs => noWA_run svc outs pm2,
    fun pm2 svcs => noWA_tryLoop svcs pm2,
    fun pm2 sids => noWA_killLoop sids pm2⟩
  · rw [htrace]
    simp [statusSeq, hne2]
  · rw [htrace]
    simp [statusSeq, edgesFrom, hne2]
  · intro pm2 svc
    refine ⟨?_, ?_, ?_, ?_, ?_⟩ <;>
      simp [manageSandboxAttempt, statusSeq, edgesFrom]

/-- Witness for C1 amended at the concrete ready state. -/
theorem C1_amended_turn_edges_witness :
    statusSeq (handleChatMessage pm0 proj0 7 true).2 1 =
      [SandboxStatus.WORKING, SandboxStatus.READY] :=
  (C1_amended_turn_edges pm0 proj0 7
    { id := 1, service_type := .BACKEND } { id := 2, service_type := .FRONTEND }
    (by decide) (by decide) (by decide) (by decide) (by decide)).1

/-- **C2 counterexample** — At a concrete state where both sandboxes are ready,
the turn completes (exactly one assistant message is persisted after the
orchestrator output is written) yet its trace contains no patch-apply, no lint
run and no commit call, contradicting the claimed apply/lint/commit finalize. -/
theorem C2_counterexample :
    countEvent (handleChatMessage pm0 proj0 7 true).2 isAssistantPersist = 1
    ∧ countEvent (handleChatMessage pm0 proj0 7 true).2 isCommit = 0
    ∧ Event.applyDiffs ∉ (handleChatMessage pm0 proj0 7 true).2
    ∧ Event.lintRun ∉ (handleChatMessage pm0 proj0 7 true).2 := by
  decide

/-- **C2 amended** — For every turn that completes, the handler persists exactly
one final assistant message, writes the orchestrator-generated files to both
sandboxes, and refreshes both services' file listings; no patch apply, no lint
pass and no commit call occur for the turn (the `_apply_and_lint_and_commit`
helper, which would end in a commit whenever invoked, is never invoked by the
handler). -/
theorem C2_amended_finalize (pm : PMState) (proj : Project) (chat_id : Nat)
    (bs fs : Service)
    (hb : findService proj .BACKEND = some bs)
    (hf : findService proj .FRONTEND = some fs)
    (hrb : sandboxReady pm bs.id = true)
    (hrf : sandboxReady pm fs.id = true) :
    countEvent (handleChatMessage pm proj chat_id true).2 isAssistantPersist = 1
    ∧ Event.writeFiles bs.id ∈ (handleChatMessage pm proj chat_id true).2
    ∧ Event.writeFiles fs.id ∈ (handleChatMessage pm proj chat_id true).2
    ∧ Event.refreshFilePaths bs.id ∈ (handleChatMessage pm proj chat_id true).2
    ∧ Event.refreshFilePaths fs.id ∈ (handleChatMessage pm proj chat_id true).2
    ∧ countEvent (handleChatMessage pm proj chat_id true).2 isCommit = 0
    ∧ Event.applyDiffs ∉ (handleChatMessage pm proj chat_id true).2
    ∧ Event.lintRun ∉ (handleChatMessage pm proj chat_id true).2
    ∧ (∀ hl le, (applyAndLintAndCommit hl le).getLast? = some Event.commitCall) := by
  have hr1 : ¬ sandboxReady pm bs.id = false := by simp [hrb]
  have hr2 : ¬ sandboxReady pm fs.id = false := by simp [hrf]
  refine ⟨?_, ?_, ?_, ?_, ?_, ?_, ?_, ?_, ?_⟩
  · simp [handleChatMessage, hb, hf, hr1, hr2, countEvent, isAssistantPersist]
  · simp [handleChatMessage, hb, hf, hr1, hr2]
  · simp [handleChatMessage, hb, hf, hr1, hr2]
  · simp [handleChatMessage, hb, hf, hr1, hr2]
  · simp [handleChatMessage, hb, hf, hr1, hr2]
  · simp [handleChatMessage, hb, hf, hr1, hr2, countEvent, isCommit]
  · simp [handleChatMessage, hb, hf, hr1, hr2]
  · simp [handleChatMessage, hb, hf, hr1, hr2]
  · intro hl le
    cases hl <;> cases le <;> rfl

/-- Witness for C2 amended at the concrete ready state. -/
theorem C2_amended_finalize_witness :
    countEvent (handleChatMessage pm0 proj0 7 true).2 isAssistantPersist = 1 :=
  (C2_amended_finalize pm0 proj0 7
    { id := 1, service_type := .BACKEND } { id := 2, service_type := .FRONTEND }
    (by decide) (by decide) (by decide) (by decide)).1

/-- **C3 counterexample** — Chats 1 and 2 of the same project are different,
`on_chat_message` acquires the same single `self.lock` for both, and a turn for
chat 2 cannot start while chat 1's turn is in flight — refuting the claim that
turns of different chats of the same project execute concurrently. -/
theorem C3_counterexample :
    (1 : Nat) ≠ 2
    ∧ onChatMessageLock { lockId := 0 } 1 = onChatMessageLock { lockId := 0 } 2
    ∧ canStartTurn { lockId := 0 } { inFlight := [1] } 2 = false := by
  decide

/-- **C3 amended** — `on_chat_message` serializes turns through the single
project-wide `self.lock`: every chat of a project acquires the same lock, so at
most one turn is in flight per chat (a second message queues behind the lock),
but turns of different chats of the same project also serialize instead of
running concurrently. -/
theorem C3_amended_single_lock (lk : PMLock) (sched : TurnSched) (c1 c2 : Nat)
    (h : sched.inFlight ≠ []) :
    onChatMessageLock lk c1 = onChatMessageLock lk c2
    ∧ canStartTurn lk sched c2 = false := by
  refine ⟨rfl, ?_⟩
  obtain ⟨l⟩ := sched
  cases l with
  | nil => exact absurd rfl h
  | cons a rest => simp [canStartTurn, onChatMessageLock]

/-- Witness for C3 amended: with chat 1's turn in flight, chat 2 cannot start. -/
theorem C3_amended_single_lock_witness :
    canStartTurn { lockId := 0 } { inFlight := [1] } 2 = false :=
  (C3_amended_single_lock { lockId := 0 } { inFlight := [1] } 1 2 (by decide)).2

end SparkStack
